import Mathlib

/-!
Verification of core behaviours of the nameko service framework
(`nameko/exceptions.py`, `nameko/containers.py`, `nameko/rpc.py`,
`nameko/amqp/publish.py`, `nameko/events.py`, `nameko/runners.py`),
via a shallow embedding of the relevant functions in Lean.
-/

namespace Nameko

/-- A Python value as far as serialization logic needs to distinguish it:
a string, a dict, an iterable (treated as a list), or any other object,
of which only the `str()` rendering is relevant. -/
inductive PyVal where
  | str (s : String)
  | dict (entries : List (PyVal × PyVal))
  | list (items : List PyVal)
  | obj (strRep : String)

/-- Embeds `nameko.exceptions.safe_for_serialization`: strings pass through,
dicts and iterables recurse over their entries, anything else is stringified. -/
def safe_for_serialization : PyVal → PyVal
  | .str s => .str s
  | .dict es => .dict (es.attach.map (fun ⟨(k, v), h⟩ =>
      (safe_for_serialization k, safe_for_serialization v)))
  | .list xs => .list (xs.attach.map (fun ⟨x, h⟩ => safe_for_serialization x))
  | .obj r => .str r
decreasing_by
  all_goals simp_wf
  · have h1 := List.sizeOf_lt_of_mem h
    simp at h1
    omega
  · have h1 := List.sizeOf_lt_of_mem h
    simp at h1
    omega
  · have h1 := List.sizeOf_lt_of_mem h
    omega

/-- An exception class, identified by its bare name and its dotted module
path (`get_module_path` in the source). -/
structure ExcType where
  name : String
  path : String
deriving DecidableEq

/-- An exception instance: its class, its `args` tuple, and its `str()`
rendering. -/
structure Exc where
  ty : ExcType
  args : List PyVal
  strRep : String

/-- The dict produced by `nameko.exceptions.serialize`. -/
structure SerializedExc where
  exc_type : String
  exc_path : String
  exc_args : List PyVal
  value : PyVal

/-- Embeds `nameko.exceptions.serialize`: an exception object is neither a
string, a dict nor an iterable, so `safe_for_serialization` stringifies it. -/
def serialize (exc : Exc) : SerializedExc :=
  { exc_type := exc.ty.name
    exc_path := exc.ty.path
    exc_args := exc.args.map safe_for_serialization
    value := safe_for_serialization (.obj exc.strRep) }

/-- The process-wide exception registry (`nameko.exceptions.registry`),
mapping dotted module paths to exception classes. -/
def Registry := String → Option ExcType

/-- The two possible returns of `nameko.exceptions.deserialize`: an instance
of a registered exception class built from `exc_args`, or a `RemoteError`
carrying `exc_type` and `value`. -/
inductive DeserializedExc where
  | instance_ (ty : ExcType) (args : List PyVal)
  | remoteError (exc_type : Option String) (value : Option PyVal)

/-- Embeds `nameko.exceptions.deserialize` on data produced by `serialize`
(all four keys present). -/
def deserialize (registry : Registry) (data : SerializedExc) : DeserializedExc :=
  match registry data.exc_path with
  | some ty => .instance_ ty data.exc_args
  | none => .remoteError (some data.exc_type) (some data.value)

/-- The Python value `None`: an object whose `str()` is `"None"`. -/
def pyNone : PyVal := .obj "None"

/-- The exceptions the embedded fragments can raise. -/
inductive NamekoExc where
  | configurationError
  | containerBeingKilled
  | malformedRequest
  | incorrectSignature
  | undeliverableMessage
  | channelError (msg : String)
  | unknownService (service_name : String)
  | eventHandlerConfigurationError
deriving DecidableEq

/-- A service class as `get_service_name` sees it: its module, its class
name, and its `name` attribute (`none` models both a missing attribute —
`getattr(service_cls, "name", None)` — and an explicit `None`). -/
structure ServiceCls where
  module : String
  clsName : String
  name : Option PyVal

/-- Embeds `nameko.containers.get_service_name`: `ConfigurationError` when
the `name` attribute is `None`/missing or not a string; any string —
including the empty string — is returned unchanged. -/
def get_service_name (service_cls : ServiceCls) : Except NamekoExc String :=
  match service_cls.name with
  | none => .error .configurationError
  | some (.str s) => .ok s
  | some _ => .error .configurationError

/-- Python dict assignment `m[k] = v` on an insertion-ordered association
list: overwrite in place when the key exists, else append. -/
def dictSet {α : Type} (m : List (String × α)) (k : String) (v : α) : List (String × α) :=
  if m.any (fun p => p.1 = k) then
    m.map (fun p => if p.1 = k then (k, v) else p)
  else
    m ++ [(k, v)]

/-- Python dict lookup `m.get(k)` on an association list. -/
def dictGet {α : Type} (m : List (String × α)) (k : String) : Option α :=
  (m.find? (fun p => p.1 = k)).map (fun p => p.2)

/-- Embeds `nameko.runners.ServiceRunner.add_service`: computes the service
name, constructs a container for the class (modelled by the class itself,
since the container is bound to it), and stores it under the name with a
plain dict assignment — an existing entry under the same name is replaced. -/
def add_service (service_map : List (String × ServiceCls)) (cls : ServiceCls) :
    Except NamekoExc (List (String × ServiceCls)) :=
  match get_service_name cls with
  | .error e => .error e
  | .ok service_name => .ok (dictSet service_map service_name cls)

/-- `deque(maxlen=n)` append: drop from the left end when over capacity. -/
def dequeAppend (maxlen : Nat) (d : List String) (x : String) : List String :=
  let d' := d ++ [x]
  d'.drop (d'.length - maxlen)

/-- `deque(maxlen=n).extend(xs)`: repeated append. -/
def dequeExtend (maxlen : Nat) (d : List String) (xs : List String) : List String :=
  xs.foldl (dequeAppend maxlen) d

/-- Embeds `WorkerContext.call_id` (`containers.py` lines 105-111): the
fresh call id is `{service}.{method}.{uuid}`. -/
def call_id (service_name method_name uuid : String) : String :=
  service_name ++ "." ++ method_name ++ "." ++ uuid

/-- Embeds `WorkerContext.call_id_stack` (`containers.py` lines 92-103):
a deque bounded by `parent_calls_tracked + 1` is extended with the parent
stack, then the fresh call id is appended, and the result is read off as a
list. -/
def call_id_stack (parent_calls_tracked : Nat) (parent_stack : List String)
    (fresh_call_id : String) : List String :=
  let stack_length := parent_calls_tracked + 1
  dequeAppend stack_length (dequeExtend stack_length [] parent_stack) fresh_call_id

/-- Modelled from the spec: `nameko/constants.py` is not among the sources;
§4.3 and §5 give the default worker-pool bound as 10. -/
def DEFAULT_MAX_WORKERS : Nat := 10

/-- A value stored under the `max_workers` config key: Python `None` or a
non-negative integer. -/
inductive ConfigValue where
  | none_
  | int (n : Nat)
deriving DecidableEq

/-- Python truthiness of a config value: `None` and `0` are falsy. -/
def pyTruthy : ConfigValue → Bool
  | .none_ => false
  | .int n => n != 0

/-- Embeds `config.get(MAX_WORKERS_CONFIG_KEY) or DEFAULT_MAX_WORKERS`
(`containers.py` line 148); `config.get` yields `None` for an absent key,
and `x or y` takes `y` whenever `x` is falsy. -/
def resolve_max_workers (cfg : Option ConfigValue) : Nat :=
  match cfg with
  | none => DEFAULT_MAX_WORKERS
  | some v => if pyTruthy v then (match v with | .int n => n | .none_ => 0) else DEFAULT_MAX_WORKERS

/-- The fields of `ServiceContainer.__init__` relevant to the worker pool:
`self.max_workers` and `GreenPool(size=self.max_workers)`. -/
structure ContainerInit where
  max_workers : Nat
  worker_pool_size : Nat

/-- Embeds the worker-pool part of `ServiceContainer.__init__`. -/
def container_init (cfg : Option ConfigValue) : ContainerInit :=
  let mw := resolve_max_workers cfg
  { max_workers := mw, worker_pool_size := mw }

/-- Embeds the start of `ServiceContainer.__init__` (`containers.py` lines
141-174): the service name is computed with `get_service_name` — whose
`ConfigurationError` aborts construction — and the worker pool is sized. -/
def service_container_new (cls : ServiceCls) (cfg : Option ConfigValue) :
    Except NamekoExc (String × ContainerInit) :=
  match get_service_name cls with
  | .error e => .error e
  | .ok service_name => .ok (service_name, container_init cfg)

/-- The calls `_run_worker` makes on a dependency provider, identified by
its bound attribute name. -/
inductive WorkerEvent where
  | inject (attr : String)
  | workerSetup (attr : String)
  | workerResult (attr : String) (result : Option PyVal) (exc_info : Option Exc)
  | workerTeardown (attr : String)

/-- The `(result, exc_info)` pair `_run_worker` delivers: the method's
outcome, possibly replaced by `handle_result` when one was supplied. -/
def worker_payload (method_outcome : Except Exc PyVal)
    (handle_result : Option ((Option PyVal × Option Exc) → (Option PyVal × Option Exc))) :
    Option PyVal × Option Exc :=
  let initial : Option PyVal × Option Exc :=
    match method_outcome with
    | .ok res => (some res, none)
    | .error exc => (none, some exc)
  match handle_result with
  | some f => f initial
  | none => initial

/-- Embeds `ServiceContainer._run_worker` (`containers.py` lines 351-414)
as the sequence of dependency-provider calls it performs: inject every
dependency, `worker_setup` on every provider, run the method catching any
exception, apply `handle_result` if given, then `worker_result` on every
provider followed by `worker_teardown` on every provider. -/
def run_worker (deps : List String) (method_outcome : Except Exc PyVal)
    (handle_result : Option ((Option PyVal × Option Exc) → (Option PyVal × Option Exc))) :
    List WorkerEvent :=
  let p := worker_payload method_outcome handle_result
  deps.map .inject
    ++ deps.map .workerSetup
    ++ deps.map (fun d => .workerResult d p.1 p.2)
    ++ deps.map .workerTeardown

/-- Whether an event is a `worker_result` call on provider `d`. -/
def isWorkerResultFor (d : String) : WorkerEvent → Bool
  | .workerResult attr _ _ => attr = d
  | _ => false

/-- Whether an event is a `worker_teardown` call on provider `d`. -/
def isWorkerTeardownFor (d : String) : WorkerEvent → Bool
  | .workerTeardown attr => attr = d
  | _ => false

/-- The side effects of `ServiceContainer.spawn_worker` after the
being-killed check: constructing a fresh service instance and submitting
the worker to the pool. -/
inductive ContainerAction where
  | constructService
  | submitWorker
deriving DecidableEq

/-- Embeds `ServiceContainer.spawn_worker` (`containers.py` lines 301-330):
when the being-killed flag is set it raises `ContainerBeingKilled` before
doing anything else; otherwise it constructs the service instance and
submits the worker. -/
def spawn_worker (being_killed : Bool) : Except NamekoExc Unit × List ContainerAction :=
  if being_killed then (.error .containerBeingKilled, [])
  else (.ok (), [.constructService, .submitWorker])

/-- The outcome of `Rpc.handle_message` when no exception escapes. -/
inductive RpcHandleOutcome where
  | spawned
  | requeued
deriving DecidableEq

/-- Embeds `Rpc.handle_message` (`rpc.py` lines 155-176): missing
`args`/`kwargs` raise `MalformedRequest`; a failing signature check raises
`IncorrectSignature`; `spawn_worker` is then attempted and exactly
`ContainerBeingKilled` is caught, triggering a requeue of the message. -/
def rpc_handle_message (has_args_kwargs : Bool) (signature_ok : Bool)
    (being_killed : Bool) : Except NamekoExc RpcHandleOutcome :=
  if !has_args_kwargs then .error .malformedRequest
  else if !signature_ok then .error .incorrectSignature
  else
    match (spawn_worker being_killed).1 with
    | .ok _ => .ok .spawned
    | .error .containerBeingKilled => .ok .requeued
    | .error e => .error e

/-- Whether `pat` starts the character list `l`. -/
def charsStartWith : List Char → List Char → Bool
  | [], _ => true
  | _ :: _, [] => false
  | a :: p, b :: l => a == b && charsStartWith p l

/-- Whether `pat` occurs contiguously inside `l`. -/
def charsContain (pat : List Char) : List Char → Bool
  | [] => pat.isEmpty
  | b :: l => charsStartWith pat (b :: l) || charsContain pat l

/-- Python `pat in s` on strings: contiguous substring search. -/
def strContains (s pat : String) : Bool :=
  charsContain pat.toList s.toList

/-- What the broker did with a publish: delivered it, or failed the channel
with a `ChannelError` whose `str()` is `msg`. -/
inductive BrokerPublishOutcome where
  | delivered
  | channelError (msg : String)
deriving DecidableEq

/-- Embeds the error handling of `Publisher.publish`
(`amqp/publish.py` lines 196-214): a `ChannelError` whose message contains
`NO_ROUTE` becomes `UndeliverableMessage`; any other channel error is
re-raised unchanged. -/
def publisher_publish (outcome : BrokerPublishOutcome) : Except NamekoExc Unit :=
  match outcome with
  | .delivered => .ok ()
  | .channelError msg =>
      if strContains msg "NO_ROUTE" then .error .undeliverableMessage
      else .error (.channelError msg)

/-- Embeds the publish step of `MethodProxy._call` (`rpc.py` lines
453-464): `UndeliverableMessage` from the publish is translated to
`UnknownService` carrying the target service name; anything else
propagates. -/
def method_proxy_call (service_name : String) (outcome : BrokerPublishOutcome) :
    Except NamekoExc Unit :=
  match publisher_publish outcome with
  | .ok _ => .ok ()
  | .error .undeliverableMessage => .error (.unknownService service_name)
  | .error e => .error e

/-- The reply payload `{"result": ..., "error": ...}` built by
`Responder.send_response`. -/
structure ReplyPayload where
  result : PyVal
  error : Option SerializedExc

/-- Embeds `nameko.exceptions.UnserializableValueError`: constructed with
no `args` (its `__init__` calls `super().__init__()` bare) and a `str()`
built from the `repr` of the offending value. -/
def UnserializableValueError (value_repr : String) : Exc :=
  { ty := { name := "UnserializableValueError"
            path := "nameko.exceptions.UnserializableValueError" }
    args := []
    strRep := "Unserializable value: `" ++ value_repr ++ "`" }

/-- Embeds `Responder.send_response` (`rpc.py` lines 199-236).
`type_to_name` is kombu's content-type-to-serializer registry, `dumps` is
kombu serialization (`none` models a raised exception), `pyRepr` is
Python `repr`. The exception info, if any, is serialized into `error`;
then a dry serialization of `result` with the serializer derived from the
request's content type is attempted, and on failure the payload becomes
`{result: None, error: serialize(UnserializableValueError(result))}`. -/
def send_response (type_to_name : String → String)
    (dumps : String → PyVal → Option String) (pyRepr : PyVal → String)
    (content_type : String) (result : PyVal) (exc_info : Option Exc) : ReplyPayload :=
  let error : Option SerializedExc := exc_info.map serialize
  let serializer := type_to_name content_type
  match dumps serializer result with
  | some _ => { result := result, error := error }
  | none =>
      { result := pyNone
        error := some (serialize (UnserializableValueError (pyRepr result))) }

/-- The three event-handler dispatch styles. -/
inductive HandlerType where
  | service_pool
  | singleton
  | broadcast
deriving DecidableEq

/-- The configuration recorded by `EventHandler.__init__`
(`events.py` lines 96-160): the constructor itself only stores these
fields and never raises. -/
structure EventHandlerCfg where
  source_service : String
  event_type : String
  handler_type : HandlerType
  reliable_delivery : Bool
  requeue_on_error : Bool

/-- Embeds the default `EventHandler.broadcast_identifier` property
(`events.py` lines 162-213): `None` unless the handler type is
`BROADCAST`; with `BROADCAST` and `reliable_delivery` it raises
`EventHandlerConfigurationError`, otherwise it yields a per-process
uuid. -/
def broadcast_identifier (h : EventHandlerCfg) (fresh_uuid : String) :
    Except NamekoExc (Option String) :=
  if h.handler_type != .broadcast then .ok none
  else if h.reliable_delivery then .error .eventHandlerConfigurationError
  else .ok (some fresh_uuid)

/-- Embeds the reflection step of `Extension.bind`
(`extensions.py` lines 66-91): `inspect.getmembers` reads every attribute
of the prototype — including the `broadcast_identifier` property — while
the container is being constructed, so an error raised there aborts the
bind. -/
def bind_event_handler (h : EventHandlerCfg) (fresh_uuid : String) :
    Except NamekoExc EventHandlerCfg :=
  match broadcast_identifier h fresh_uuid with
  | .error e => .error e
  | .ok _ => .ok h

/-- The queue declared by `EventHandler.setup`. -/
structure EventQueue where
  name : String
  durable : Bool
  auto_delete : Bool
  exclusive : Bool
deriving DecidableEq

/-- Embeds `EventHandler.setup` (`events.py` lines 214-258): queue name,
auto-delete and exclusivity are determined by the handler type and
`reliable_delivery`. -/
def event_handler_setup (h : EventHandlerCfg) (service_name method_name : String)
    (fresh_uuid : String) : Except NamekoExc EventQueue :=
  match h.handler_type with
  | .service_pool =>
      .ok { name := "evt-" ++ h.source_service ++ "-" ++ h.event_type ++ "--"
                    ++ service_name ++ "." ++ method_name
            durable := true
            auto_delete := h.reliable_delivery == false
            exclusive := false }
  | .singleton =>
      .ok { name := "evt-" ++ h.source_service ++ "-" ++ h.event_type
            durable := true
            auto_delete := h.reliable_delivery == false
            exclusive := false }
  | .broadcast =>
      match broadcast_identifier h fresh_uuid with
      | .error e => .error e
      | .ok bid =>
          .ok { name := "evt-" ++ h.source_service ++ "-" ++ h.event_type ++ "--"
                        ++ service_name ++ "." ++ method_name ++ "-"
                        ++ (bid.getD "")
                durable := true
                auto_delete := h.reliable_delivery == false
                exclusive := h.reliable_delivery == false }

/-- Container construction followed by setup for an event handler: the
prototype is bound during `ServiceContainer.__init__` and `setup` runs only
later, from `ServiceContainer.start`. -/
def container_create_and_setup (h : EventHandlerCfg) (service_name method_name : String)
    (fresh_uuid : String) : Except NamekoExc EventQueue :=
  match bind_event_handler h fresh_uuid with
  | .error e => .error e
  | .ok bound => event_handler_setup bound service_name method_name fresh_uuid

/-! ## Helper lemmas -/

lemma dictSet_cons_ne {α : Type} (p : String × α) (t : List (String × α)) (k : String)
    (v : α) (hp : ¬ p.1 = k) : dictSet (p :: t) k v = p :: dictSet t k v := by
  by_cases ht : t.any (fun q => q.1 = k) <;> simp [dictSet, hp, ht]

lemma dictGet_cons_ne {α : Type} (p : String × α) (t : List (String × α)) (k : String)
    (hp : ¬ p.1 = k) : dictGet (p :: t) k = dictGet t k := by
  simp [dictGet, List.find?, hp]

lemma dictGet_dictSet_self {α : Type} (m : List (String × α)) (k : String) (v : α) :
    dictGet (dictSet m k v) k = some v := by
  induction m with
  | nil => simp [dictSet, dictGet, List.find?]
  | cons p t ih =>
      by_cases hp : p.1 = k
      · simp [dictSet, dictGet, hp, List.find?]
      · rw [dictSet_cons_ne p t k v hp, dictGet_cons_ne p _ k hp]
        exact ih

lemma dictGet_map_update {α : Type} (m : List (String × α)) (k k' : String) (v : α)
    (hkk : ¬ k' = k) :
    dictGet (m.map (fun p => if p.1 = k then (k, v) else p)) k' = dictGet m k' := by
  induction m with
  | nil => simp [dictGet]
  | cons p t ih =>
      by_cases hp : p.1 = k
      · have h1 : ¬ (k : String) = k' := fun h => hkk h.symm
        rw [List.map_cons, if_pos hp]
        rw [dictGet_cons_ne _ _ k' h1]
        have h2 : ¬ p.1 = k' := by rw [hp]; exact h1
        rw [dictGet_cons_ne _ _ k' h2]
        exact ih
      · rw [List.map_cons, if_neg hp]
        by_cases hq : p.1 = k'
        · simp [dictGet, List.find?, hq]
        · rw [dictGet_cons_ne _ _ k' hq, dictGet_cons_ne _ _ k' hq]
          exact ih

lemma dictGet_append_ne {α : Type} (m : List (String × α)) (k k' : String) (v : α)
    (hkk : ¬ k = k') : dictGet (m ++ [(k, v)]) k' = dictGet m k' := by
  induction m with
  | nil => simp [dictGet, List.find?, hkk]
  | cons p t ih =>
      by_cases hp : p.1 = k'
      · simp [dictGet, List.find?, hp]
      · rw [List.cons_append, dictGet_cons_ne _ _ k' hp, dictGet_cons_ne _ _ k' hp]
        exact ih

lemma dictGet_dictSet_ne {α : Type} (m : List (String × α)) (k k' : String) (v : α)
    (hkk : ¬ k' = k) : dictGet (dictSet m k v) k' = dictGet m k' := by
  by_cases hm : m.any (fun q => q.1 = k)
  · rw [show dictSet m k v = m.map (fun p => if p.1 = k then (k, v) else p) from by
      simp [dictSet, hm]]
    exact dictGet_map_update m k k' v hkk
  · rw [show dictSet m k v = m ++ [(k, v)] from by simp [dictSet, hm]]
    exact dictGet_append_ne m k k' v (fun h => hkk h.symm)

lemma dequeAppend_length_le (maxlen : Nat) (d : List String) (x : String) :
    (dequeAppend maxlen d x).length ≤ maxlen := by
  simp [dequeAppend]
  omega

lemma dequeExtend_nil_eq_drop (maxlen : Nat) (xs : List String) :
    ∀ d : List String, d.length ≤ maxlen →
      dequeExtend maxlen d xs = (d ++ xs).drop ((d ++ xs).length - maxlen) := by
  induction xs with
  | nil =>
      intro d hd
      have h0 : d.length - maxlen = 0 := by omega
      simp [dequeExtend, h0]
  | cons x t ih =>
      intro d hd
      have h1 : dequeExtend maxlen d (x :: t) =
          dequeExtend maxlen (dequeAppend maxlen d x) t := rfl
      rw [h1, ih _ (dequeAppend_length_le maxlen d x)]
      have h2 : dequeAppend maxlen d x =
          (d ++ [x]).drop ((d ++ [x]).length - maxlen) := by
        simp [dequeAppend]
      rw [h2, List.append_cons d x t]
      have h3 : ∀ L : List String, L.length - maxlen - L.length = 0 →
          L.drop (L.length - maxlen) ++ t = (L ++ t).drop (L.length - maxlen) := by
        intro L hL
        rw [List.drop_append_eq_append_drop, hL, List.drop_zero]
      rw [h3 (d ++ [x]) (by omega), List.drop_drop]
      congr 1
      simp
      omega

lemma dequeAppend_getLast? (maxlen : Nat) (hm : 0 < maxlen) (d : List String)
    (x : String) : (dequeAppend maxlen d x).getLast? = some x := by
  unfold dequeAppend
  simp only []
  rw [List.drop_append_eq_append_drop]
  have h0 : (d ++ [x]).length - maxlen - d.length = 0 := by
    simp
    omega
  rw [h0, List.drop_zero]
  exact List.getLast?_concat _

lemma filter_map_eq_nil {α β : Type} (f : α → β) (p : β → Bool) (l : List α)
    (h : ∀ x ∈ l, p (f x) = false) : (l.map f).filter p = [] := by
  rw [List.filter_eq_nil_iff]
  intro a ha
  rcases List.mem_map.mp ha with ⟨x, hx, rfl⟩
  simp [h x hx]

lemma filter_map_eq_single {β : Type} (f : String → β) (p : β → Bool)
    (l : List String) (d : String) (hn : l.Nodup) (hd : d ∈ l)
    (hp : ∀ x, p (f x) = decide (x = d)) : (l.map f).filter p = [f d] := by
  induction l with
  | nil => cases hd
  | cons a t ih =>
      have hat : a ∉ t := (List.nodup_cons.mp hn).1
      have hnt : t.Nodup := (List.nodup_cons.mp hn).2
      rcases List.mem_cons.mp hd with h | h
      · subst h
        rw [List.map_cons, List.filter_cons_of_pos (by simp [hp d])]
        rw [filter_map_eq_nil f p t ?_]
        · intro x hx
          rw [hp x]
          simp
          intro hxa
          exact absurd (hxa ▸ hx) hat
      · have had : ¬ a = d := fun he => hat (he ▸ h)
        rw [List.map_cons, List.filter_cons_of_neg (by simp [hp a, had])]
        exact ih hnt h

/-! ## Theorems for the claims -/

/-- C2: for every exception type registered in the process-wide registry,
`deserialize (serialize exc)` returns an instance of that same type (built
from the serialized args); for an unregistered type it returns a
`RemoteError` carrying the original `exc_type` and `value`. -/
theorem exception_serialization_roundtrip (registry : Registry) (exc : Exc) :
    (registry exc.ty.path = some exc.ty →
      deserialize registry (serialize exc) =
        .instance_ exc.ty (exc.args.map safe_for_serialization)) ∧
    (registry exc.ty.path = none →
      deserialize registry (serialize exc) =
        .remoteError (some exc.ty.name) (some (.str exc.strRep))) := by
  constructor
  · intro h
    simp [deserialize, serialize, h]
  · intro h
    simp [deserialize, serialize, h, safe_for_serialization]

/-- Witness for C2 at a concrete registered exception. -/
theorem exception_serialization_roundtrip_witness :
    deserialize
        (fun p => if p = "nameko.exceptions.MethodNotFound" then
          some { name := "MethodNotFound", path := "nameko.exceptions.MethodNotFound" }
          else none)
        (serialize
          { ty := { name := "MethodNotFound", path := "nameko.exceptions.MethodNotFound" }
            args := [.str "sub"]
            strRep := "sub" }) =
      .instance_ { name := "MethodNotFound", path := "nameko.exceptions.MethodNotFound" }
        ([PyVal.str "sub"].map safe_for_serialization) :=
  (exception_serialization_roundtrip _ _).1 (by simp)

/-- C1: for every dependency provider of a worker run by `_run_worker`,
exactly one `worker_result` call is performed — carrying the method's
result or its exception info (possibly replaced by `handle_result`) —
followed by exactly one `worker_teardown` call; this holds whether the
service method returned normally or raised. -/
theorem worker_result_then_teardown (deps : List String) (d : String)
    (hn : deps.Nodup) (hd : d ∈ deps) (method_outcome : Except Exc PyVal)
    (handle_result : Option ((Option PyVal × Option Exc) → (Option PyVal × Option Exc))) :
    (run_worker deps method_outcome handle_result).filter
        (fun e => isWorkerResultFor d e || isWorkerTeardownFor d e) =
      [.workerResult d (worker_payload method_outcome handle_result).1
          (worker_payload method_outcome handle_result).2,
        .workerTeardown d] ∧
    (∀ r, handle_result = none → method_outcome = .ok r →
      worker_payload method_outcome handle_result = (some r, none)) ∧
    (∀ ex, handle_result = none → method_outcome = .error ex →
      worker_payload method_outcome handle_result = (none, some ex)) := by
  refine ⟨?_, ?_, ?_⟩
  · unfold run_worker
    simp only [List.filter_append]
    rw [filter_map_eq_nil WorkerEvent.inject _ deps
      (by intro x hx; simp [isWorkerResultFor, isWorkerTeardownFor])]
    rw [filter_map_eq_nil WorkerEvent.workerSetup _ deps
      (by intro x hx; simp [isWorkerResultFor, isWorkerTeardownFor])]
    rw [filter_map_eq_single _ _ deps d hn hd
      (by intro x; simp [isWorkerResultFor, isWorkerTeardownFor])]
    rw [filter_map_eq_single WorkerEvent.workerTeardown _ deps d hn hd
      (by intro x; simp [isWorkerResultFor, isWorkerTeardownFor])]
    simp
  · intro r h1 h2
    subst h1
    subst h2
    rfl
  · intro ex h1 h2
    subst h1
    subst h2
    rfl

/-- Witness for C1: two dependency providers, a raising method, no
`handle_result`. -/
theorem worker_result_then_teardown_witness :
    (run_worker ["db", "cache"]
          (.error { ty := { name := "ValueError", path := "builtins.ValueError" }
                    args := []
                    strRep := "boom" }) none).filter
        (fun e => isWorkerResultFor "db" e || isWorkerTeardownFor "db" e) =
      [.workerResult "db"
          (worker_payload
            (.error { ty := { name := "ValueError", path := "builtins.ValueError" }
                      args := []
                      strRep := "boom" }) none).1
          (worker_payload
            (.error { ty := { name := "ValueError", path := "builtins.ValueError" }
                      args := []
                      strRep := "boom" }) none).2,
        .workerTeardown "db"] :=
  (worker_result_then_teardown ["db", "cache"] "db" (by simp) (by simp)
    (.error { ty := { name := "ValueError", path := "builtins.ValueError" }
              args := []
              strRep := "boom" }) none).1

/-- C3: the call-id stack built by `WorkerContext.call_id_stack` never has
more than `parent_calls_tracked + 1` entries; it is the inherited parent
chain plus the fresh call id, trimmed from the oldest end when over that
bound; and its last element is the fresh call id, which has the form
`{service}.{method}.{uuid}`. -/
theorem call_id_stack_bounded (parent_calls_tracked : Nat) (parent_stack : List String)
    (service_name method_name uuid : String) :
    (call_id_stack parent_calls_tracked parent_stack
        (call_id service_name method_name uuid)).length ≤ parent_calls_tracked + 1 ∧
    call_id_stack parent_calls_tracked parent_stack
        (call_id service_name method_name uuid) =
      (parent_stack ++ [call_id service_name method_name uuid]).drop
        ((parent_stack.length + 1) - (parent_calls_tracked + 1)) ∧
    (call_id_stack parent_calls_tracked parent_stack
        (call_id service_name method_name uuid)).getLast? =
      some (service_name ++ "." ++ method_name ++ "." ++ uuid) := by
  have hmain : ∀ c : String,
      (call_id_stack parent_calls_tracked parent_stack c).length ≤
        parent_calls_tracked + 1 ∧
      call_id_stack parent_calls_tracked parent_stack c =
        (parent_stack ++ [c]).drop
          ((parent_stack.length + 1) - (parent_calls_tracked + 1)) ∧
      (call_id_stack parent_calls_tracked parent_stack c).getLast? = some c := by
    intro c
    refine ⟨dequeAppend_length_le _ _ _, ?_,
      dequeAppend_getLast? _ (Nat.succ_pos _) _ _⟩
    have h1 : call_id_stack parent_calls_tracked parent_stack c =
        dequeExtend (parent_calls_tracked + 1) [] (parent_stack ++ [c]) := by
      simp [call_id_stack, dequeExtend, List.foldl_append]
    rw [h1, dequeExtend_nil_eq_drop _ _ [] (by simp)]
    simp
  rcases hmain (call_id service_name method_name uuid) with ⟨ha, hb, hc⟩
  exact ⟨ha, hb, by rw [hc]; rfl⟩

/-- C4: with the being-killed flag set, `spawn_worker` raises
`ContainerBeingKilled` without constructing a service instance or
submitting a worker, and `Rpc.handle_message` catches exactly this
exception, requeueing the message instead of replying; a malformed body or
a failing signature check propagates instead. -/
theorem spawn_worker_container_being_killed (being_killed : Bool)
    (h : being_killed = true) :
    spawn_worker being_killed = (.error .containerBeingKilled, []) ∧
    rpc_handle_message true true being_killed = .ok .requeued ∧
    rpc_handle_message true true false = .ok .spawned ∧
    (∀ sig : Bool, rpc_handle_message false sig being_killed = .error .malformedRequest) ∧
    rpc_handle_message true false being_killed = .error .incorrectSignature := by
  subst h
  exact ⟨rfl, rfl, rfl, fun sig => rfl, rfl⟩

/-- Witness for C4 with the flag set. -/
theorem spawn_worker_container_being_killed_witness :
    spawn_worker true = (.error .containerBeingKilled, []) ∧
    rpc_handle_message true true true = .ok .requeued :=
  ⟨(spawn_worker_container_being_killed true rfl).1,
    (spawn_worker_container_being_killed true rfl).2.1⟩

/-- C5: a publish that fails with a broker channel error reporting
`NO_ROUTE` raises `UndeliverableMessage`; any other channel error
propagates unchanged; and when the RPC method proxy's publish raises
`UndeliverableMessage`, the caller sees `UnknownService` carrying the
target service name. -/
theorem no_route_undeliverable_unknown_service (msg service_name : String)
    (h : strContains msg "NO_ROUTE" = true) :
    publisher_publish (.channelError msg) = .error .undeliverableMessage ∧
    method_proxy_call service_name (.channelError msg) =
      .error (.unknownService service_name) ∧
    (∀ m, strContains m "NO_ROUTE" = false →
      publisher_publish (.channelError m) = .error (.channelError m)) ∧
    (∀ m, strContains m "NO_ROUTE" = false →
      method_proxy_call service_name (.channelError m) = .error (.channelError m)) := by
  refine ⟨?_, ?_, ?_, ?_⟩
  · simp [publisher_publish, h]
  · simp [method_proxy_call, publisher_publish, h]
  · intro m hm
    simp [publisher_publish, hm]
  · intro m hm
    simp [method_proxy_call, publisher_publish, hm]

/-- Witness for C5 at a concrete broker error message. -/
theorem no_route_undeliverable_unknown_service_witness :
    publisher_publish (.channelError "Basic.publish: (312) NO_ROUTE") =
      .error .undeliverableMessage ∧
    method_proxy_call "ghost" (.channelError "Basic.publish: (312) NO_ROUTE") =
      .error (.unknownService "ghost") :=
  ⟨(no_route_undeliverable_unknown_service "Basic.publish: (312) NO_ROUTE" "ghost"
      (by decide)).1,
    (no_route_undeliverable_unknown_service "Basic.publish: (312) NO_ROUTE" "ghost"
      (by decide)).2.1⟩

/-- C6: `send_response` dry-serializes the result with the reply serializer
derived from the request's content type; when the dry run raises, the
published payload is `{result: None, error:
serialize(UnserializableValueError(result))}`, and otherwise it is the
result together with the (possibly null) serialized error — a well-formed
reply in either case. -/
theorem send_response_guards_unserializable (type_to_name : String → String)
    (dumps : String → PyVal → Option String) (pyRepr : PyVal → String)
    (content_type : String) (result : PyVal) (exc_info : Option Exc) :
    (dumps (type_to_name content_type) result = none →
      send_response type_to_name dumps pyRepr content_type result exc_info =
        { result := pyNone
          error := some (serialize (UnserializableValueError (pyRepr result))) }) ∧
    (∀ enc, dumps (type_to_name content_type) result = some enc →
      send_response type_to_name dumps pyRepr content_type result exc_info =
        { result := result, error := exc_info.map serialize }) := by
  constructor
  · intro h
    simp [send_response, h]
  · intro enc h
    simp [send_response, h]

/-- Witness for C6 with a serializer that rejects the result. -/
theorem send_response_guards_unserializable_witness :
    send_response (fun _ => "json") (fun _ _ => none) (fun _ => "<object>")
        "application/json" (.obj "<object>") none =
      { result := pyNone
        error := some (serialize (UnserializableValueError "<object>")) } :=
  (send_response_guards_unserializable (fun _ => "json") (fun _ _ => none)
    (fun _ => "<object>") "application/json" (.obj "<object>") none).1 rfl

/-- C9: an event handler configured as `BROADCAST` with
`reliable_delivery=True` under the default `broadcast_identifier` fails
with `EventHandlerConfigurationError`; the error fires when the property
is read by the reflection inside `Extension.bind` — during container
construction — so `setup` is never reached. -/
theorem broadcast_reliable_delivery_rejected (cfg : EventHandlerCfg)
    (service_name method_name fresh_uuid : String)
    (h1 : cfg.handler_type = .broadcast) (h2 : cfg.reliable_delivery = true) :
    broadcast_identifier cfg fresh_uuid = .error .eventHandlerConfigurationError ∧
    bind_event_handler cfg fresh_uuid = .error .eventHandlerConfigurationError ∧
    container_create_and_setup cfg service_name method_name fresh_uuid =
      .error .eventHandlerConfigurationError := by
  have hb : broadcast_identifier cfg fresh_uuid =
      .error .eventHandlerConfigurationError := by
    simp [broadcast_identifier, h1, h2]
  refine ⟨hb, ?_, ?_⟩
  · simp [bind_event_handler, hb]
  · simp [container_create_and_setup, bind_event_handler, hb]

/-- Witness for C9 at a concrete broadcast handler. -/
theorem broadcast_reliable_delivery_rejected_witness :
    container_create_and_setup
        { source_service := "emitter", event_type := "thing_happened"
          handler_type := .broadcast, reliable_delivery := true
          requeue_on_error := false }
        "listener" "handle" "uuid-1" =
      .error .eventHandlerConfigurationError :=
  (broadcast_reliable_delivery_rejected
    { source_service := "emitter", event_type := "thing_happened"
      handler_type := .broadcast, reliable_delivery := true
      requeue_on_error := false }
    "listener" "handle" "uuid-1" rfl rfl).2.2

/-- Counterexample for C7: adding a second service class under the
already-taken name `svc` succeeds and silently replaces the registered
container, instead of being rejected. -/
theorem add_service_duplicate_not_rejected :
    add_service [("svc", { module := "mod_a", clsName := "A", name := some (.str "svc") })]
        { module := "mod_b", clsName := "B", name := some (.str "svc") } =
      .ok [("svc", { module := "mod_b", clsName := "B", name := some (.str "svc") })] := by
  simp [add_service, get_service_name, dictSet]

/-- C7 amended: `add_service` computes the service name and stores the new
container with a plain dict assignment — a duplicate service name is
accepted without error, the new container replaces the previously
registered one, and entries under other names are untouched. -/
theorem add_service_replaces (m : List (String × ServiceCls)) (cls : ServiceCls)
    (nm : String) (h : get_service_name cls = .ok nm) :
    ∃ m', add_service m cls = .ok m' ∧ dictGet m' nm = some cls ∧
      ∀ k, ¬ k = nm → dictGet m' k = dictGet m k := by
  refine ⟨dictSet m nm cls, ?_, ?_, ?_⟩
  · simp [add_service, h]
  · exact dictGet_dictSet_self m nm cls
  · intro k hk
    exact dictGet_dictSet_ne m nm k cls hk

/-- Witness for the amended C7 at a concrete service class. -/
theorem add_service_replaces_witness :
    ∃ m', add_service [] { module := "mod_a", clsName := "A", name := some (.str "svc") } =
        .ok m' ∧
      dictGet m' "svc" = some { module := "mod_a", clsName := "A", name := some (.str "svc") } ∧
      ∀ k, ¬ k = "svc" → dictGet m' k =
        dictGet ([] : List (String × ServiceCls)) k :=
  add_service_replaces [] _ "svc" rfl

/-- Counterexample for C8: a service class whose `name` attribute is the
empty string is accepted — container construction succeeds instead of
failing with `ConfigurationError`. -/
theorem empty_service_name_accepted :
    service_container_new { module := "m", clsName := "C", name := some (.str "") } none =
      .ok ("", { max_workers := 10, worker_pool_size := 10 }) := rfl

/-- C8 amended: container construction fails with `ConfigurationError`
exactly when the service class's `name` attribute is missing/`None` or not
a string; any string — including the empty string — is accepted as the
service name. -/
theorem service_name_validation (cls : ServiceCls) (cfg : Option ConfigValue) :
    (cls.name = none → service_container_new cls cfg = .error .configurationError) ∧
    (∀ s, cls.name = some (.str s) →
      service_container_new cls cfg = .ok (s, container_init cfg)) ∧
    (∀ v, cls.name = some v → (∀ s, ¬ v = PyVal.str s) →
      service_container_new cls cfg = .error .configurationError) := by
  refine ⟨?_, ?_, ?_⟩
  · intro h
    simp [service_container_new, get_service_name, h]
  · intro s h
    simp [service_container_new, get_service_name, h]
  · intro v h hv
    cases v with
    | str s => exact absurd rfl (hv s)
    | dict es => simp [service_container_new, get_service_name, h]
    | list xs => simp [service_container_new, get_service_name, h]
    | obj r => simp [service_container_new, get_service_name, h]

/-- Witness for the amended C8 at a service class with no `name`. -/
theorem service_name_validation_witness :
    service_container_new { module := "m", clsName := "C", name := none } none =
      .error .configurationError :=
  (service_name_validation _ _).1 rfl

/-- C10: any falsy `max_workers` config value — absent key, `None`, or
`0` — yields the default of 10 for both `max_workers` and the worker-pool
size, and no configuration yields a pool of size 0. -/
theorem max_workers_default (cfg : Option ConfigValue)
    (h : cfg = none ∨ cfg = some .none_ ∨ cfg = some (.int 0)) :
    (container_init cfg).max_workers = 10 ∧
    (container_init cfg).worker_pool_size = 10 ∧
    ∀ c : Option ConfigValue, 0 < (container_init c).worker_pool_size := by
  have hpool : ∀ c : Option ConfigValue, 0 < (container_init c).worker_pool_size := by
    intro c
    match c with
    | none => decide
    | some .none_ => decide
    | some (.int n) =>
        simp only [container_init, resolve_max_workers, pyTruthy, DEFAULT_MAX_WORKERS]
        by_cases hn : n = 0
        · simp [hn]
        · simp [hn]
          omega
  rcases h with h | h | h <;> subst h <;> exact ⟨rfl, rfl, hpool⟩

/-- Witness for C10 with the key absent from the config. -/
theorem max_workers_default_witness :
    (container_init none).max_workers = 10 ∧ (container_init none).worker_pool_size = 10 :=
  ⟨(max_workers_default none (Or.inl rfl)).1, (max_workers_default none (Or.inl rfl)).2.1⟩

end Nameko
